import Mathlib

/-!
Verification of the mastra-vivi PCD (Pessoa com Deficiência) analysis core.

This file gives a shallow embedding of the deterministic analysis, scoring
and decision pipeline of the repository:

* `src/mastra/tools/pcd-document-analysis-tool.ts`
  - `analyzePCDDocumentFromPDF` (keyword classification of extracted text,
    completeness scoring, missing-document resolution), and
  - `evaluatePCDEligibility` (document-set scan and eligibility decision);
* `src/mastra/tools/laudo-caracterizador-tool.ts`
  - `generateLaudoCaracterizador` (rendering of the Laudo report template).

The impure surroundings (PDF download, text extraction, `Date.now()`,
console logging) are out of scope: the embedded functions take the already
extracted, lowercased text (resp. the structured entries, resp. the dossier
together with the impurely generated id and date strings) as inputs, exactly
as the deterministic cores of the tools do.

JavaScript `String.prototype.includes` is modelled by `strIncludes`
(substring test over the character list), and the two regular expressions
`/cid-?\d+/` and `/crm[\s-]*\d+/` by direct scanning functions.
-/

/-! ## String utilities (JS `includes` and the two regex tests) -/

/-- `startsWithChars pat s` is true when `pat` is a prefix of `s`
(character-list version of string prefix). -/
def startsWithChars : List Char → List Char → Bool
  | [], _ => true
  | _ :: _, [] => false
  | a :: as, b :: bs => a == b && startsWithChars as bs

/-- `includesChars s pat` is true when `pat` occurs contiguously inside `s`:
the model of JavaScript `s.includes(pat)` over character lists. -/
def includesChars (pat : List Char) : List Char → Bool
  | [] => startsWithChars pat []
  | s@(_ :: rest) => startsWithChars pat s || includesChars pat rest

/-- JavaScript `content.includes(pat)`. -/
def strIncludes (content pat : String) : Bool :=
  includesChars pat.toList content.toList

/-- JavaScript `toLowerCase`, modelled on the ASCII range (the keyword sets
and enum names the source lowercases are ASCII-cased). -/
def jsToLower (s : String) : String :=
  String.mk (s.toList.map Char.toLower)

/-- One-position match of the regex `cid-?\d+`: the literal `cid`, an
optional `-`, then a digit (`\d+` needs only its first digit to match). -/
def cidNumAt : List Char → Bool
  | 'c' :: 'i' :: 'd' :: rest =>
    match rest with
    | '-' :: d :: _ => d.isDigit
    | d :: _ => d.isDigit
    | [] => false
  | _ => false

/-- One-position match of the regex `crm[\s-]*\d+`: the literal `crm`, a run
of whitespace or `-`, then a digit. Since a digit is not in `[\s-]`, the
backtracking star is equivalent to skipping the maximal such run. -/
def crmNumAt : List Char → Bool
  | 'c' :: 'r' :: 'm' :: rest =>
    match (rest.dropWhile fun ch => ch.isWhitespace || ch == '-') with
    | d :: _ => d.isDigit
    | [] => false
  | _ => false

/-- `RegExp.test`: some position of the subject matches. -/
def regexTestAnywhere (p : List Char → Bool) : List Char → Bool
  | [] => p []
  | s@(_ :: rest) => p s || regexTestAnywhere p rest

/-! ## Data model of `analyzePCDDocumentFromPDF`
(pcd-document-analysis-tool.ts, first tool) -/

/-- The `detectedDeficiencyType` enumeration of the analysis tool. -/
inductive DetectedType
  | FISICA | INTELECTUAL | AUDITIVA | VISUAL | MULTIPLA | PSICOSSOCIAL | NAO_IDENTIFICADA
deriving DecidableEq

/-- The string the source compares and interpolates for a detected type. -/
def DetectedType.str : DetectedType → String
  | .FISICA => "FISICA"
  | .INTELECTUAL => "INTELECTUAL"
  | .AUDITIVA => "AUDITIVA"
  | .VISUAL => "VISUAL"
  | .MULTIPLA => "MULTIPLA"
  | .PSICOSSOCIAL => "PSICOSSOCIAL"
  | .NAO_IDENTIFICADA => "NAO_IDENTIFICADA"

/-- The `expectedDeficiencyType` input enumeration of the analysis tool. -/
inductive ExpectedType
  | FISICA | INTELECTUAL | AUDITIVA | VISUAL | MULTIPLA | PSICOSSOCIAL | DESCONHECIDA
deriving DecidableEq

/-- The string the source compares and interpolates for an expected type. -/
def ExpectedType.str : ExpectedType → String
  | .FISICA => "FISICA"
  | .INTELECTUAL => "INTELECTUAL"
  | .AUDITIVA => "AUDITIVA"
  | .VISUAL => "VISUAL"
  | .MULTIPLA => "MULTIPLA"
  | .PSICOSSOCIAL => "PSICOSSOCIAL"
  | .DESCONHECIDA => "DESCONHECIDA"

/-- The `documentQuality` enumeration. -/
inductive Quality
  | EXCELENTE | BOA | REGULAR | INSUFICIENTE
deriving DecidableEq

/-! ### Medical-evidence detection (lines 100-105 of the tool) -/

/-- `hasCIDDiagnosis` (line 101): `content.includes('cid') ||
content.includes('c.i.d') || /cid-?\d+/.test(content)`. -/
def hasCIDDiagnosisOf (content : String) : Bool :=
  strIncludes content "cid" || strIncludes content "c.i.d"
    || regexTestAnywhere cidNumAt content.toList

/-- `hasValidCRM` (line 104): `content.includes('crm') ||
/crm[\s-]*\d+/.test(content)`. -/
def hasValidCRMOf (content : String) : Bool :=
  strIncludes content "crm" || regexTestAnywhere crmNumAt content.toList

/-- `hasProperMedicalSignature` (line 105). -/
def hasProperMedicalSignatureOf (content : String) : Bool :=
  hasValidCRMOf content && (strIncludes content "dr." || strIncludes content "dra.")

/-! ### Keyword classification (lines 107-187) -/

/-- Trigger set of the FISICA rule (lines 117-124). -/
def fisicaTrigger (content : String) : Bool :=
  strIncludes content "deficiência física" || strIncludes content "deficiencia fisica"
    || strIncludes content "mobilidade reduzida" || strIncludes content "paraplegia"
    || strIncludes content "amputação" || strIncludes content "amputacao"

/-- Trigger set of the INTELECTUAL rule (lines 129-134). -/
def intelectualTrigger (content : String) : Bool :=
  strIncludes content "deficiência intelectual" || strIncludes content "deficiencia intelectual"
    || strIncludes content "retardo mental" || strIncludes content "transtorno do desenvolvimento"

/-- Trigger set of the AUDITIVA rule (lines 139-145). -/
def auditivaTrigger (content : String) : Bool :=
  strIncludes content "deficiência auditiva" || strIncludes content "deficiencia auditiva"
    || strIncludes content "surdez" || strIncludes content "perda auditiva"
    || strIncludes content "audiometria"

/-- Trigger set of the VISUAL rule (lines 155-162). -/
def visualTrigger (content : String) : Bool :=
  strIncludes content "deficiência visual" || strIncludes content "deficiencia visual"
    || strIncludes content "cegueira" || strIncludes content "baixa visão"
    || strIncludes content "baixa visao" || strIncludes content "acuidade visual"

/-- Trigger set of the PSICOSSOCIAL rule (lines 172-177). -/
def psicossocialTrigger (content : String) : Bool :=
  strIncludes content "transtorno mental" || strIncludes content "psicossocial"
    || strIncludes content "esquizofrenia" || strIncludes content "bipolar"

/-- The message pushed when the AUDITIVA rule finds no audiometry evidence
(line 151). -/
def audGapMsg : String := "Audiometria ou BERA (obrigatorio para deficiencia auditiva)"

/-- The message pushed when the VISUAL rule finds no visual-exam evidence
(line 168). -/
def visGapMsg : String := "Exame de acuidade visual e campo visual (obrigatorio para deficiencia visual)"

/-- The mutable state threaded through the five keyword blocks:
`detectedDeficiencyType`, `issuerQualifications`, and the type-specific
entries pushed onto `missingDocuments` during classification. -/
structure ClassifyState where
  detected : DetectedType
  quals : List String
  gaps : List String
deriving DecidableEq

/-- The five sequential keyword blocks of lines 117-180, each overwriting
`detected` and appending to `quals` (and, for AUDITIVA/VISUAL, possibly to
`gaps`), run in source order on lowercased `content`. -/
def classifyState (content : String) : ClassifyState :=
  let s0 : ClassifyState := ⟨.NAO_IDENTIFICADA, [], []⟩
  let s1 := if fisicaTrigger content then
      { s0 with detected := .FISICA, quals := s0.quals ++ ["Ortopedia", "Fisiatria"] }
    else s0
  let s2 := if intelectualTrigger content then
      { s1 with detected := .INTELECTUAL, quals := s1.quals ++ ["Neurologia", "Psiquiatria"] }
    else s1
  let s3 := if auditivaTrigger content then
      { s2 with detected := .AUDITIVA,
                quals := s2.quals ++ ["Otorrinolaringologia", "Fonoaudiologia"],
                gaps := s2.gaps ++
                  (if !strIncludes content "audiometria" && !strIncludes content "bera" then
                    [audGapMsg] else []) }
    else s2
  let s4 := if visualTrigger content then
      { s3 with detected := .VISUAL,
                quals := s3.quals ++ ["Oftalmologia"],
                gaps := s3.gaps ++
                  (if !strIncludes content "acuidade visual" && !strIncludes content "campo visual" then
                    [visGapMsg] else []) }
    else s3
  if psicossocialTrigger content then
    { s4 with detected := .PSICOSSOCIAL, quals := s4.quals ++ ["Psiquiatria"] }
  else s4

/-- The keyword list of the MULTIPLA check (line 183). -/
def deficiencyKeywords : List String :=
  ["física", "fisica", "auditiva", "visual", "intelectual", "psicossocial"]

/-- `foundDeficiencies.length` (line 184). -/
def foundDeficiencyCount (content : String) : Nat :=
  (deficiencyKeywords.filter fun kw => strIncludes content kw).length

/-- The final `detectedDeficiencyType` (lines 182-187): the MULTIPLA
override applies whenever more than one of the six keywords occurs. -/
def detectedTypeOf (content : String) : DetectedType :=
  if foundDeficiencyCount content > 1 then .MULTIPLA else (classifyState content).detected

/-- Which disability type "wins" the sequential overwrite: the last rule in
the fixed order FISICA, INTELECTUAL, AUDITIVA, VISUAL, PSICOSSOCIAL whose
trigger set matches. Characterisation used by the theorems; the source
computes it by overwriting a shared variable. -/
def lastMatchType (content : String) : DetectedType :=
  if psicossocialTrigger content then .PSICOSSOCIAL
  else if visualTrigger content then .VISUAL
  else if auditivaTrigger content then .AUDITIVA
  else if intelectualTrigger content then .INTELECTUAL
  else if fisicaTrigger content then .FISICA
  else .NAO_IDENTIFICADA

/-- How many of the five base-type rules match the text. -/
def matchedRuleCount (content : String) : Nat :=
  ([fisicaTrigger content, intelectualTrigger content, auditivaTrigger content,
    visualTrigger content, psicossocialTrigger content].filter id).length

/-! ### Document-type presence and CIF criteria (lines 189-205) -/

/-- `hasLaudoMedico` (lines 190-191). -/
def hasLaudoMedicoOf (content : String) : Bool :=
  strIncludes content "laudo médico" || strIncludes content "laudo medico"
    || strIncludes content "parecer médico"

/-- `hasSpecialistReport` (lines 192-196). -/
def hasSpecialistReportOf (content : String) : Bool :=
  strIncludes content "relatório" || strIncludes content "relatorio"
    || strIncludes content "especialista" || strIncludes content "avaliação"

/-- `hasComplementaryExams` (lines 197-198). -/
def hasComplementaryExamsOf (content : String) : Bool :=
  strIncludes content "exame" || strIncludes content "resultado"
    || strIncludes content "tomografia"

/-- `meetsCIFCriteria` (lines 201-205). -/
def meetsCIFCriteriaOf (content : String) : Bool :=
  strIncludes content "funcionalidade" || strIncludes content "cif"
    || strIncludes content "limitação funcional" || strIncludes content "limitacao funcional"

/-! ### Missing documents, score, quality, recommendations, urgency
(lines 207-266) -/

/-- The complete `missingDocuments` list: the type-specific gaps pushed
during classification (lines 151, 168), then the three required-document
checks of lines 207-217, in push order. -/
def missingDocumentsOf (content : String) : List String :=
  (classifyState content).gaps
    ++ (if !hasLaudoMedicoOf content then ["Laudo medico atualizado (obrigatorio)"] else [])
    ++ (if !hasCIDDiagnosisOf content then ["Diagnostico com codigo CID"] else [])
    ++ (if !hasValidCRMOf content then ["Documento com CRM do medico"] else [])

/-- The eight evidence booleans the completeness rubric adds over
(lines 219-236), in the source's addition order. -/
structure EvidenceFlags where
  hasLaudoMedico : Bool
  hasSpecialistReport : Bool
  hasCIDDiagnosis : Bool
  hasProperMedicalSignature : Bool
  hasValidCRM : Bool
  typeIdentified : Bool
  meetsCIFCriteria : Bool
  hasComplementaryExams : Bool
deriving DecidableEq

/-- The weighted completeness rubric (lines 220-236). -/
def completenessScore (f : EvidenceFlags) : Nat :=
  (if f.hasLaudoMedico then 20 else 0)
    + (if f.hasSpecialistReport then 20 else 0)
    + (if f.hasCIDDiagnosis then 10 else 0)
    + (if f.hasProperMedicalSignature then 10 else 0)
    + (if f.hasValidCRM then 10 else 0)
    + (if f.typeIdentified then 15 else 0)
    + (if f.meetsCIFCriteria then 5 else 0)
    + (if f.hasComplementaryExams then 10 else 0)

/-- The evidence flags the analysis derives from the text. -/
def evidenceFlagsOf (content : String) : EvidenceFlags where
  hasLaudoMedico := hasLaudoMedicoOf content
  hasSpecialistReport := hasSpecialistReportOf content
  hasCIDDiagnosis := hasCIDDiagnosisOf content
  hasProperMedicalSignature := hasProperMedicalSignatureOf content
  hasValidCRM := hasValidCRMOf content
  typeIdentified := detectedTypeOf content != .NAO_IDENTIFICADA
  meetsCIFCriteria := meetsCIFCriteriaOf content
  hasComplementaryExams := hasComplementaryExamsOf content

/-- The quality tier of a score (lines 239-242). -/
def documentQuality (score : Nat) : Quality :=
  if 85 ≤ score then .EXCELENTE
  else if 70 ≤ score then .BOA
  else if 50 ≤ score then .REGULAR
  else .INSUFICIENTE

/-- The `recommendations` list (lines 244-257), in push order. -/
def recommendationsOf (content : String) : List String :=
  (if (missingDocumentsOf content).length > 0 then
      ["Solicitar documentos faltantes listados"] else [])
    ++ (if !hasValidCRMOf content then
        ["Verificar assinatura e carimbo medico com CRM valido"] else [])
    ++ (if completenessScore (evidenceFlagsOf content) < 70 then
        ["Documentacao insuficiente - solicitar relatorio medico mais detalhado"] else [])
    ++ (if detectedTypeOf content = .NAO_IDENTIFICADA then
        ["Identificar tipo especifico de deficiencia nos documentos"] else [])

/-- The discrepancy urgency flag of lines 262-264. -/
def discrepancyFlag (det : DetectedType) (exp : ExpectedType) : String :=
  "Tipo de deficiencia detectada (" ++ det.str ++ ") difere do esperado (" ++ exp.str ++ ")"

/-- The expected-vs-detected check of lines 260-266: with a supplied
expected type other than DESCONHECIDA, a discrepancy flag is pushed when
the detected type's name differs and the detected type is identified. The
source compares the two enumerations by their string names. -/
def expectedDiscrepancyFlags (content : String) : Option ExpectedType → List String
  | some e =>
    if e = .DESCONHECIDA then []
    else if (detectedTypeOf content).str ≠ e.str
        ∧ detectedTypeOf content ≠ .NAO_IDENTIFICADA then
      [discrepancyFlag (detectedTypeOf content) e]
    else []
  | none => []

/-- The `urgencyFlags` list: the CID flag (line 213), the unidentified-type
flag (line 256), and the expected-vs-detected discrepancy flag
(lines 260-266), in push order. -/
def urgencyFlagsOf (content : String) (expected : Option ExpectedType) : List String :=
  (if !hasCIDDiagnosisOf content then
      ["Falta diagnostico com CID - fundamental para avaliacao"] else [])
    ++ (if detectedTypeOf content = .NAO_IDENTIFICADA then
        ["Tipo de deficiencia nao identificado no documento"] else [])
    ++ expectedDiscrepancyFlags content expected

/-- The output record of the analysis tool (the `extractedContent` block,
a pass-through of the external PDF extractor, is out of core scope). -/
structure DocumentAnalysisResult where
  completenessScore : Nat
  hasRequiredDocuments : Bool
  missingDocuments : List String
  documentQuality : Quality
  hasCurrentMedicalReport : Bool
  hasSpecialistReport : Bool
  hasComplementaryExams : Bool
  hasCIDDiagnosis : Bool
  issuerQualifications : List String
  meetsLei13146Requirements : Bool
  meetsCIFCriteria : Bool
  hasProperMedicalSignature : Bool
  hasValidCRM : Bool
  detectedDeficiencyType : DetectedType
  recommendations : List String
  urgencyFlags : List String
deriving DecidableEq

/-- The deterministic core of `analyzePCDDocumentFromPDF` (lines 89-300):
the function of the lowercased extracted text and the optional expected
type. `hasRequiredDocuments = hasLaudoMedico && hasCIDDiagnosis`
(line 268) and `meetsLei13146Requirements = hasRequiredDocuments &&
hasCIDDiagnosis` (line 292). -/
def analyzePCDDocumentFromPDF (content : String) (expected : Option ExpectedType) :
    DocumentAnalysisResult where
  completenessScore := completenessScore (evidenceFlagsOf content)
  hasRequiredDocuments := hasLaudoMedicoOf content && hasCIDDiagnosisOf content
  missingDocuments := missingDocumentsOf content
  documentQuality := documentQuality (completenessScore (evidenceFlagsOf content))
  hasCurrentMedicalReport := hasLaudoMedicoOf content
  hasSpecialistReport := hasSpecialistReportOf content
  hasComplementaryExams := hasComplementaryExamsOf content
  hasCIDDiagnosis := hasCIDDiagnosisOf content
  issuerQualifications := (classifyState content).quals
  meetsLei13146Requirements :=
    (hasLaudoMedicoOf content && hasCIDDiagnosisOf content) && hasCIDDiagnosisOf content
  meetsCIFCriteria := meetsCIFCriteriaOf content
  hasProperMedicalSignature := hasProperMedicalSignatureOf content
  hasValidCRM := hasValidCRMOf content
  detectedDeficiencyType := detectedTypeOf content
  recommendations := recommendationsOf content
  urgencyFlags := urgencyFlagsOf content expected

/-! ## Data model of `evaluatePCDEligibility`
(pcd-document-analysis-tool.ts, second tool) -/

/-- The `PCDOutcome` enumeration: SIM (confirmed), NAO (rejected),
TALVEZ (indeterminate). -/
inductive Outcome
  | SIM | NAO | TALVEZ
deriving DecidableEq

/-- The `DeficiencyType` output enumeration of the evaluation tool
(line 340 of the concatenated source). -/
inductive DeficiencyType
  | FISICA | INTELECTUAL | AUDITIVA | VISUAL | MULTIPLA | PSICOSSOCIAL
deriving DecidableEq

/-- The string name of an evaluation-tool deficiency type. -/
def DeficiencyType.str : DeficiencyType → String
  | .FISICA => "FISICA"
  | .INTELECTUAL => "INTELECTUAL"
  | .AUDITIVA => "AUDITIVA"
  | .VISUAL => "VISUAL"
  | .MULTIPLA => "MULTIPLA"
  | .PSICOSSOCIAL => "PSICOSSOCIAL"

/-- The severity enumeration. -/
inductive Severity
  | LEVE | MODERADA | GRAVE | GRAVISSIMA
deriving DecidableEq

/-- The document-type tags of `documentationProvided` entries. -/
inductive DocType
  | LAUDO_MEDICO | RELATORIO_ESPECIALISTA | EXAMES_COMPLEMENTARES
  | ATESTADO_MEDICO | CIF_ASSESSMENT | NEUROPSICOLOGICO | OUTROS
deriving DecidableEq

/-- A structured document entry of the evaluation tool's input. -/
structure DocEntry where
  type : DocType
  content : String
  issueDate : Option String := none
  professionalCRM : Option String := none
  specialization : Option String := none
deriving DecidableEq

/-- The fixed legal-justification bundle shape. -/
structure LegalFramework where
  lei13146 : String
  cif : String
  decreto : String
deriving DecidableEq

/-- The `PCDEvaluationResult` output record. -/
structure EvalResult where
  outcome : Outcome
  confidence : ℚ
  deficiencyType : Option DeficiencyType
  severityLevel : Option Severity
  functionalLimitations : List String
  compensatoryFactors : List String
  legalJustification : LegalFramework
  clinicalEvidence : List String
  missingDocumentation : List String
  technicalReasoning : String
  requiresPhysicalEvaluation : Bool
deriving DecidableEq

/-- The mutable state of step 2's per-document loop (lines 419-453):
`deficiencyType`, `functionalLimitations`, `clinicalEvidence`. -/
structure ScanState where
  deficiencyType : Option DeficiencyType
  functionalLimitations : List String
  clinicalEvidence : List String
deriving DecidableEq

/-- One keyword block of the loop: when `matched`, overwrite the type and
append the corresponding functional-limitation finding. -/
def stepType (matched : Bool) (t : DeficiencyType) (finding : String)
    (st : ScanState) : ScanState :=
  if matched then
    { st with deficiencyType := some t,
              functionalLimitations := st.functionalLimitations ++ [finding] }
  else st

/-- One clinical-evidence block of the loop: when `matched`, append the
evidence string. -/
def stepEvidence (matched : Bool) (evidence : String) (st : ScanState) : ScanState :=
  if matched then
    { st with clinicalEvidence := st.clinicalEvidence ++ [evidence] }
  else st

/-- The body of `for (const doc of documentationProvided)` (lines 425-453):
four type blocks then two evidence blocks, on the lowercased content. -/
def scanEvalDoc (st : ScanState) (doc : DocEntry) : ScanState :=
  let c := jsToLower doc.content
  let st1 := stepType (strIncludes c "deficiência física" || strIncludes c "mobilidade")
    .FISICA "Limitações de mobilidade identificadas" st
  let st2 := stepType (strIncludes c "deficiência intelectual" || strIncludes c "cognitiv")
    .INTELECTUAL "Limitações cognitivas identificadas" st1
  let st3 := stepType (strIncludes c "deficiência auditiva" || strIncludes c "surdez")
    .AUDITIVA "Limitações auditivas identificadas" st2
  let st4 := stepType (strIncludes c "deficiência visual" || strIncludes c "cegueira")
    .VISUAL "Limitações visuais identificadas" st3
  let st5 := stepEvidence (strIncludes c "cid") "CID identificado na documentação" st4
  stepEvidence (strIncludes c "limitação funcional") "Limitações funcionais documentadas" st5

/-- The whole document scan, from the empty initial state. -/
def evalScan (docs : List DocEntry) : ScanState :=
  docs.foldl scanEvalDoc ⟨none, [], []⟩

/-- Step 3's missing-document list (lines 414-416): the two required
strings, in push order. -/
def evalMissingDocs (docs : List DocEntry) : List String :=
  (if docs.any (fun d => d.type == .LAUDO_MEDICO) then []
    else ["Laudo médico atualizado (menos de 1 ano)"])
    ++ (if docs.any (fun d => d.type == .RELATORIO_ESPECIALISTA) then []
        else ["Relatório de médico especialista na área da deficiência"])

/-- The fixed legal justification of step 4 (lines 477-482). -/
def evalLegalJustification : LegalFramework where
  lei13146 := "Art. 2º - Considera-se pessoa com deficiência aquela que tem impedimento de longo prazo de natureza física, mental, intelectual ou sensorial, o qual, em interação com uma ou mais barreiras, pode obstruir sua participação plena e efetiva na sociedade em igualdade de condições com as demais pessoas."
  cif := "Classificação baseada no modelo bio-psico-social da deficiência, considerando funções e estruturas do corpo, atividade e participação social."
  decreto := "Decreto 3.298/1999 e suas atualizações para classificação e avaliação"

/-- Step 5's templated technical reasoning (lines 485-492). -/
def technicalReasoningOf (outcome : Outcome) (deficiencyType : Option DeficiencyType)
    (missingCount : Nat) (requiresPhysicalEvaluation : Bool) : String :=
  match outcome with
  | .SIM =>
    "Baseado na análise da documentação fornecida, identificou-se "
      ++ (match deficiencyType with
          | some t => jsToLower t.str
          | none => "undefined")
      ++ " com limitações funcionais que atendem aos critérios da Lei 13.146/2015. A documentação apresenta evidências clínicas suficientes para caracterizar impedimento de longo prazo que, em interação com barreiras, pode obstruir a participação plena na sociedade."
  | .NAO =>
    "A documentação analisada não apresenta evidências suficientes de impedimento de longo prazo que atenda aos critérios estabelecidos pela Lei 13.146/2015. As condições apresentadas não caracterizam deficiência nos termos legais vigentes."
  | .TALVEZ =>
    "A documentação fornecida é insuficiente para conclusão definitiva. "
      ++ (if missingCount > 0 then "Faltam documentos essenciais." else "")
      ++ " "
      ++ (if requiresPhysicalEvaluation then
          "Recomenda-se avaliação física presencial para melhor caracterização." else "")

/-- The fixed compensatory factors (lines 494-498). -/
def evalCompensatoryFactors : List String :=
  ["Capacidade adaptativa preservada", "Uso de tecnologia assistiva",
   "Suporte familiar adequado"]

/-- The try-block of `evaluatePCDEligibility.execute` (lines 408-514):
document-kind coverage, per-document keyword scan, then the four-branch
decision table of lines 456-474, evaluated top-down. The candidate, company
and urgency inputs do not influence the result. -/
def evalBody (docs : List DocEntry) : EvalResult :=
  let missingDocs := evalMissingDocs docs
  let st := evalScan docs
  let dec : Outcome × ℚ × Option Severity × Bool :=
    if missingDocs.length > 0 then
      (.TALVEZ, 0.3, none, false)
    else if st.deficiencyType.isSome && st.functionalLimitations.length > 0 then
      (.SIM, 0.8, some .MODERADA, false)
    else if docs.length > 0 && st.deficiencyType.isSome then
      (.TALVEZ, 0.6, none, true)
    else
      (.NAO, 0.7, none, false)
  { outcome := dec.1
    confidence := dec.2.1
    deficiencyType := st.deficiencyType
    severityLevel := dec.2.2.1
    functionalLimitations := st.functionalLimitations
    compensatoryFactors := evalCompensatoryFactors
    legalJustification := evalLegalJustification
    clinicalEvidence := st.clinicalEvidence
    missingDocumentation := missingDocs
    technicalReasoning :=
      technicalReasoningOf dec.1 st.deficiencyType missingDocs.length dec.2.2.2
    requiresPhysicalEvaluation := dec.2.2.2 }

/-- The catch-block result of lines 518-532: the degraded assessment
returned when anything inside the try-block throws. -/
def degradedEvalResult : EvalResult where
  outcome := .TALVEZ
  confidence := 0.1
  deficiencyType := none
  severityLevel := none
  functionalLimitations := []
  compensatoryFactors := []
  legalJustification :=
    { lei13146 := "Lei 13.146/2015 - Lei Brasileira de Inclusão"
      cif := "Classificação Internacional de Funcionalidade, Incapacidade e Saúde"
      decreto := "Decreto 3.298/1999" }
  clinicalEvidence := []
  missingDocumentation := ["Erro na análise - revisão manual necessária"]
  technicalReasoning := "Erro técnico durante a análise. Recomenda-se revisão manual completa da documentação."
  requiresPhysicalEvaluation := true

/-- The try/catch structure of `execute`: a body that may signal an error
(a thrown exception) is run, and an error is replaced by the degraded
assessment. The body is a parameter so that the handler can be stated for
every possible internal failure; the embedded pure body never fails. -/
def runGuarded (body : List DocEntry → Except String EvalResult)
    (docs : List DocEntry) : EvalResult :=
  match body docs with
  | .ok r => r
  | .error _ => degradedEvalResult

/-- `evaluatePCDEligibility.execute`, as the guarded body. -/
def evaluatePCDEligibility (docs : List DocEntry) : EvalResult :=
  runGuarded (fun d => .ok (evalBody d)) docs

/-! ## Data model of `generateLaudoCaracterizador`
(laudo-caracterizador-tool.ts) -/

/-- The `prognosis` enumeration. -/
inductive Prognosis
  | TEMPORARIA | PERMANENTE
deriving DecidableEq

/-- The string name of a prognosis. -/
def Prognosis.str : Prognosis → String
  | .TEMPORARIA => "TEMPORARIA"
  | .PERMANENTE => "PERMANENTE"

/-- The string name of a severity level. -/
def Severity.str : Severity → String
  | .LEVE => "LEVE"
  | .MODERADA => "MODERADA"
  | .GRAVE => "GRAVE"
  | .GRAVISSIMA => "GRAVISSIMA"

/-- `candidateInfo` (lines 6-14). Optional fields are `Option String`;
JavaScript treats an empty string like an absent one in the template's
conditionals. -/
structure CandidateInfo where
  fullName : String
  cpf : String
  rg : Option String := none
  birthDate : String
  address : Option String := none
  phone : Option String := none
  email : Option String := none
deriving DecidableEq

/-- `medicalInfo` (lines 17-25). -/
structure MedicalInfo where
  deficiencyType : DeficiencyType
  cidCode : String
  cifCode : Option String := none
  diagnosis : String
  onsetDate : Option String := none
  prognosis : Prognosis
  severityLevel : Severity
deriving DecidableEq

/-- `functionalAssessment` (lines 28-33). -/
structure FunctionalAssessment where
  functionalLimitations : List String
  preservedFunctions : List String
  adaptiveCapacity : String
  assistiveTechnology : List String
deriving DecidableEq

/-- `professionalInfo` (lines 36-42). -/
structure ProfessionalInfo where
  doctorName : String
  crm : String
  specialization : String
  issueDate : String
  expirationDate : Option String := none
deriving DecidableEq

/-- `legalBasis` (lines 45-50). -/
structure LegalBasis where
  lei13146 : Bool
  decreto3298 : Bool
  cif : Bool
  otherLaws : Option (List String) := none
deriving DecidableEq

/-- The dossier (`LaudoCaracterizadorData`). -/
structure LaudoData where
  candidateInfo : CandidateInfo
  medicalInfo : MedicalInfo
  functionalAssessment : FunctionalAssessment
  professionalInfo : ProfessionalInfo
  legalBasis : LegalBasis
deriving DecidableEq

/-- One optional-field line of the template: JavaScript
`${v ? `LABEL: ${v}` : ''}` — absent or empty renders as the empty string
(the surrounding line breaks belong to the template and stay). -/
def optLine (label : String) : Option String → String
  | some s => if s = "" then "" else label ++ s
  | none => ""

/-- A legal-basis line: `${flag ? 'TEXT' : ''}`. -/
def flagLine (flag : Bool) (text : String) : String :=
  if flag then text else ""

/-- `list.map((x) => `- ${x}`).join('\n')`. -/
def bulletJoin (items : List String) : String :=
  String.intercalate "\n" (items.map fun item => "- " ++ item)

/-- The `${otherLaws?.length ? otherLaws.map(...).join('\n') : ''}` line
(line 151). -/
def otherLawsLine : Option (List String) → String
  | some laws => if laws.length > 0 then bulletJoin laws else ""
  | none => ""

/-- The assistive-technology block (lines 126-133): a single interpolation
slot that renders either the empty string or a block with its own
surrounding line breaks. -/
def assistiveBlock (techs : List String) : String :=
  if techs.length > 0 then
    "\nTecnologias Assistivas:\n" ++ bulletJoin techs ++ "\n"
  else ""

/-- The 47-character separator ruler of the template. -/
def laudoRule : String := String.mk (List.replicate 47 '=')

/-- The lines of the `fullDocument` template literal (lines 88-171), in
order, one list element per template line; interpolation slots that span
several physical lines (the bullet lists and the assistive block) render
inside their single element, exactly as in the template. `laudoId` and
`currentDate` are computed impurely (from `Date.now()` and the locale
clock) by the surrounding tool and are parameters here. -/
def laudoLines (d : LaudoData) (laudoId currentDate : String) : List String :=
  ["LAUDO CARACTERIZADOR DE PESSOA COM DEFICIENCIA",
   laudoRule,
   "",
   "IDENTIFICACAO DO LAUDO",
   "Numero do Laudo: " ++ laudoId,
   "Data de Emissao: " ++ currentDate,
   "Validade: 2 anos a partir da data de emissao",
   "",
   "DADOS DO AVALIADO",
   "Nome Completo: " ++ d.candidateInfo.fullName,
   "CPF: " ++ d.candidateInfo.cpf,
   optLine "RG: " d.candidateInfo.rg,
   "Data de Nascimento: " ++ d.candidateInfo.birthDate,
   optLine "Endereco: " d.candidateInfo.address,
   optLine "Telefone: " d.candidateInfo.phone,
   optLine "Email: " d.candidateInfo.email,
   "",
   "INFORMACOES MEDICAS",
   "Tipo de Deficiencia: " ++ d.medicalInfo.deficiencyType.str,
   "Diagnostico Principal: " ++ d.medicalInfo.diagnosis,
   "CID-10: " ++ d.medicalInfo.cidCode,
   optLine "CIF: " d.medicalInfo.cifCode,
   optLine "Data de Inicio: " d.medicalInfo.onsetDate,
   "Prognostico: " ++ d.medicalInfo.prognosis.str,
   "Grau da Deficiencia: " ++ d.medicalInfo.severityLevel.str,
   "",
   "AVALIACAO FUNCIONAL",
   "",
   "Limitacoes Funcionais Identificadas:",
   bulletJoin d.functionalAssessment.functionalLimitations,
   "",
   "Funcoes Preservadas:",
   bulletJoin d.functionalAssessment.preservedFunctions,
   "",
   "Capacidade Adaptativa:",
   d.functionalAssessment.adaptiveCapacity,
   "",
   assistiveBlock d.functionalAssessment.assistiveTechnology,
   "",
   "CONCLUSAO TECNICA",
   "Com base na avaliacao medica realizada e na analise da documentacao apresentada,",
   "ATESTO que " ++ d.candidateInfo.fullName ++ ", portador(a) do CPF " ++ d.candidateInfo.cpf ++ ",",
   "apresenta deficiencia do tipo " ++ jsToLower d.medicalInfo.deficiencyType.str ++ ",",
   "enquadrando-se nos criterios estabelecidos pela legislacao brasileira para",
   "PESSOA COM DEFICIENCIA (PCD).",
   "",
   "O diagnostico de " ++ d.medicalInfo.diagnosis ++ " (CID-10: " ++ d.medicalInfo.cidCode ++ ")",
   "configura impedimento de longo prazo que, em interacao com diversas barreiras,",
   "pode obstruir a participacao plena e efetiva na sociedade em igualdade de",
   "condicoes com as demais pessoas.",
   "",
   "FUNDAMENTACAO LEGAL",
   flagLine d.legalBasis.lei13146 "- Lei no 13.146/2015 (Lei Brasileira de Inclusao da Pessoa com Deficiencia)",
   flagLine d.legalBasis.decreto3298 "- Decreto no 3.298/1999 (Regulamenta a Lei no 7.853/1989)",
   flagLine d.legalBasis.cif "- Classificacao Internacional de Funcionalidade, Incapacidade e Saude (CIF/OMS)",
   otherLawsLine d.legalBasis.otherLaws,
   "",
   "Este laudo tem validade de 2 (dois) anos a partir da data de emissao e",
   "foi elaborado de acordo com as normas tecnicas vigentes e criterios",
   "estabelecidos pela legislacao brasileira.",
   "",
   "RESPONSAVEL TECNICO",
   "Dr(a). " ++ d.professionalInfo.doctorName,
   "CRM: " ++ d.professionalInfo.crm,
   "Especialidade: " ++ d.professionalInfo.specialization,
   "",
   "_________________________________",
   "Assinatura e Carimbo",
   "",
   "Data: " ++ currentDate,
   "Local: Sao Paulo/SP",
   "",
   laudoRule,
   "Este documento possui validade legal e foi emitido em conformidade",
   "com a legislacao brasileira vigente sobre pessoas com deficiencia."]

/-- JavaScript `String.prototype.trim`: strip whitespace from both ends. -/
def jsTrim (s : String) : String :=
  String.mk (((s.toList.dropWhile Char.isWhitespace).reverse.dropWhile
    Char.isWhitespace).reverse)

/-- The rendered `fullDocument` (lines 88-171): the template literal —
a leading and a trailing newline around the newline-joined lines — with
`.trim()` applied, as in the source. -/
def fullDocument (d : LaudoData) (laudoId currentDate : String) : String :=
  jsTrim (("\n" ++ String.intercalate "\n" (laudoLines d laudoId currentDate)) ++ "\n")

/-! ## Helper lemmas about the keyword classifier -/

/-- Closed form of the five sequential keyword blocks: the surviving
`detected` value is the last matching rule's type, while the
qualifications and the type-specific gaps accumulate over all matching
rules, in rule order. -/
theorem classifyState_eq (content : String) :
    classifyState content =
      ⟨lastMatchType content,
       (if fisicaTrigger content then ["Ortopedia", "Fisiatria"] else [])
         ++ (if intelectualTrigger content then ["Neurologia", "Psiquiatria"] else [])
         ++ (if auditivaTrigger content then ["Otorrinolaringologia", "Fonoaudiologia"] else [])
         ++ (if visualTrigger content then ["Oftalmologia"] else [])
         ++ (if psicossocialTrigger content then ["Psiquiatria"] else []),
       (if auditivaTrigger content then
           (if !strIncludes content "audiometria" && !strIncludes content "bera" then
             [audGapMsg] else [])
         else [])
         ++ (if visualTrigger content then
             (if !strIncludes content "acuidade visual" && !strIncludes content "campo visual" then
               [visGapMsg] else [])
           else [])⟩ := by
  unfold classifyState lastMatchType
  cases hf : fisicaTrigger content <;> cases hi : intelectualTrigger content <;>
    cases ha : auditivaTrigger content <;> cases hv : visualTrigger content <;>
    cases hp : psicossocialTrigger content <;> simp

/-- The sequential overwrite never produces MULTIPLA. -/
theorem lastMatchType_ne_multipla (content : String) :
    lastMatchType content ≠ .MULTIPLA := by
  unfold lastMatchType
  split_ifs <;> simp

/-- Claim C3 (amended): the MULTIPLA override fires exactly when at least
two of the six literal keywords occur in the text, which is not the same
as two base-type rules matching; below the override, the last matching
rule's type stands. -/
theorem C3_multiple_amended (content : String) :
    (detectedTypeOf content = .MULTIPLA ↔ 2 ≤ foundDeficiencyCount content)
      ∧ (foundDeficiencyCount content ≤ 1 →
          detectedTypeOf content = lastMatchType content) := by
  unfold detectedTypeOf
  rw [classifyState_eq]
  by_cases h : 1 < foundDeficiencyCount content
  · constructor
    · simp [h]
      omega
    · intro h1
      omega
  · constructor
    · rw [if_neg h]
      constructor
      · intro he
        exact absurd he (lastMatchType_ne_multipla content)
      · intro h2
        omega
    · intro _
      simp [h]

/-- Claim C3 counterexample: "surdez cegueira" matches the trigger sets of
exactly two base-type rules (AUDITIVA and VISUAL), yet the detected type is
not MULTIPLA — the override counts keyword occurrences, not rule matches. -/
theorem C3_multiple_cex :
    auditivaTrigger "surdez cegueira" = true ∧ visualTrigger "surdez cegueira" = true
      ∧ fisicaTrigger "surdez cegueira" = false
      ∧ intelectualTrigger "surdez cegueira" = false
      ∧ psicossocialTrigger "surdez cegueira" = false
      ∧ (analyzePCDDocumentFromPDF "surdez cegueira" none).detectedDeficiencyType ≠ .MULTIPLA := by
  decide

/-- Claim C7 (amended): with two or more matching rules, the last matching
rule's type wins the single-type assignment, but the returned
qualifications and type-specific gaps accumulate over all matching rules in
rule order — a union, not just the last match. -/
theorem C7_accumulation_amended (content : String)
    (_h : 2 ≤ matchedRuleCount content) :
    (classifyState content).detected = lastMatchType content
      ∧ (classifyState content).quals =
          (if fisicaTrigger content then ["Ortopedia", "Fisiatria"] else [])
            ++ (if intelectualTrigger content then ["Neurologia", "Psiquiatria"] else [])
            ++ (if auditivaTrigger content then ["Otorrinolaringologia", "Fonoaudiologia"] else [])
            ++ (if visualTrigger content then ["Oftalmologia"] else [])
            ++ (if psicossocialTrigger content then ["Psiquiatria"] else [])
      ∧ (classifyState content).gaps =
          (if auditivaTrigger content then
              (if !strIncludes content "audiometria" && !strIncludes content "bera" then
                [audGapMsg] else [])
            else [])
            ++ (if visualTrigger content then
                (if !strIncludes content "acuidade visual" && !strIncludes content "campo visual" then
                  [visGapMsg] else [])
              else []) := by
  rw [classifyState_eq]
  exact ⟨rfl, rfl, rfl⟩

/-- Witness for C7's amended theorem at "surdez cegueira". -/
theorem C7_accumulation_witness :
    (classifyState "surdez cegueira").detected = lastMatchType "surdez cegueira"
      ∧ (classifyState "surdez cegueira").quals =
          (if fisicaTrigger "surdez cegueira" then ["Ortopedia", "Fisiatria"] else [])
            ++ (if intelectualTrigger "surdez cegueira" then ["Neurologia", "Psiquiatria"] else [])
            ++ (if auditivaTrigger "surdez cegueira" then ["Otorrinolaringologia", "Fonoaudiologia"] else [])
            ++ (if visualTrigger "surdez cegueira" then ["Oftalmologia"] else [])
            ++ (if psicossocialTrigger "surdez cegueira" then ["Psiquiatria"] else [])
      ∧ (classifyState "surdez cegueira").gaps =
          (if auditivaTrigger "surdez cegueira" then
              (if !strIncludes "surdez cegueira" "audiometria" && !strIncludes "surdez cegueira" "bera" then
                [audGapMsg] else [])
            else [])
            ++ (if visualTrigger "surdez cegueira" then
                (if !strIncludes "surdez cegueira" "acuidade visual" && !strIncludes "surdez cegueira" "campo visual" then
                  [visGapMsg] else [])
              else []) :=
  C7_accumulation_amended "surdez cegueira" (by decide)

/-- Claim C7 counterexample: on "surdez cegueira" the last matching rule is
VISUAL and the primary detected type is VISUAL, but the returned
qualifications keep the AUDITIVA entries and both type-specific gaps are
present — not just those of the last match. -/
theorem C7_last_match_cex :
    matchedRuleCount "surdez cegueira" = 2
      ∧ (analyzePCDDocumentFromPDF "surdez cegueira" none).detectedDeficiencyType = .VISUAL
      ∧ (analyzePCDDocumentFromPDF "surdez cegueira" none).issuerQualifications
          = ["Otorrinolaringologia", "Fonoaudiologia", "Oftalmologia"]
      ∧ (classifyState "surdez cegueira").gaps = [audGapMsg, visGapMsg] := by
  decide

/-! ## Helper lemmas for the missing-document and urgency rules -/

/-- For an expected type other than DESCONHECIDA (whose own name contains
"CID"), the discrepancy flag never mentions the literal "CID". The source
only builds the flag under that guard. -/
theorem discrepancyFlag_no_cid (d : DetectedType) (e : ExpectedType)
    (he : e ≠ .DESCONHECIDA) :
    strIncludes (discrepancyFlag d e) "CID" = false := by
  cases d <;> cases e <;> first
    | decide
    | exact absurd rfl he

/-- Claim C8: with no medical-report evidence and no CID evidence, the
missing-document list contains both required entries and the urgency flags
contain exactly one flag mentioning "CID". -/
theorem C8_missing_docs_cid_flag (content : String) (expected : Option ExpectedType)
    (hL : hasLaudoMedicoOf content = false) (hC : hasCIDDiagnosisOf content = false) :
    "Laudo medico atualizado (obrigatorio)"
        ∈ (analyzePCDDocumentFromPDF content expected).missingDocuments
      ∧ "Diagnostico com codigo CID"
          ∈ (analyzePCDDocumentFromPDF content expected).missingDocuments
      ∧ ((analyzePCDDocumentFromPDF content expected).urgencyFlags.filter
          (fun s => strIncludes s "CID")).length = 1 := by
  refine ⟨?_, ?_, ?_⟩
  · show _ ∈ missingDocumentsOf content
    unfold missingDocumentsOf
    simp [hL]
  · show _ ∈ missingDocumentsOf content
    unfold missingDocumentsOf
    simp [hC]
  · show (List.filter _ (urgencyFlagsOf content expected)).length = 1
    unfold urgencyFlagsOf
    rw [hC]
    simp only [Bool.not_false, if_true, List.filter_append, List.length_append]
    have h1 : (List.filter (fun s => strIncludes s "CID")
        ["Falta diagnostico com CID - fundamental para avaliacao"]).length = 1 := by decide
    have h2 : (List.filter (fun s => strIncludes s "CID")
        (if detectedTypeOf content = .NAO_IDENTIFICADA then
          ["Tipo de deficiencia nao identificado no documento"] else [])).length = 0 := by
      by_cases hd : detectedTypeOf content = .NAO_IDENTIFICADA
      · simp [hd]
        decide
      · simp [hd]
    have h3 : (List.filter (fun s => strIncludes s "CID")
        (expectedDiscrepancyFlags content expected)).length = 0 := by
      rcases expected with _ | e
      · rfl
      · show (List.filter _
          (if e = ExpectedType.DESCONHECIDA then []
           else if (detectedTypeOf content).str ≠ e.str
               ∧ detectedTypeOf content ≠ .NAO_IDENTIFICADA then
             [discrepancyFlag (detectedTypeOf content) e]
           else [])).length = 0
        by_cases he : e = .DESCONHECIDA
        · simp [he]
        · rw [if_neg he]
          by_cases hne : (detectedTypeOf content).str ≠ e.str
              ∧ detectedTypeOf content ≠ .NAO_IDENTIFICADA
          · rw [if_pos hne]
            simp [discrepancyFlag_no_cid (detectedTypeOf content) e he]
          · rw [if_neg hne]
            rfl
    omega

/-- Witness for C8 at the keyword-free text "sem dados". -/
theorem C8_missing_docs_cid_flag_witness :
    "Laudo medico atualizado (obrigatorio)"
        ∈ (analyzePCDDocumentFromPDF "sem dados" none).missingDocuments
      ∧ "Diagnostico com codigo CID"
          ∈ (analyzePCDDocumentFromPDF "sem dados" none).missingDocuments
      ∧ ((analyzePCDDocumentFromPDF "sem dados" none).urgencyFlags.filter
          (fun s => strIncludes s "CID")).length = 1 :=
  C8_missing_docs_cid_flag "sem dados" none (by decide) (by decide)

/-! ## Claims about the completeness rubric -/

/-- Claim C4: over all combinations of the eight evidence flags the score
is at most 100 (it is a `Nat`, hence at least 0), it is the weighted sum
with weights 20/20/10/10/10/15/5/10, and the quality tier follows the
threshold table exactly. -/
theorem C4_score_bounds_tier :
    ∀ a b c d e g h i : Bool,
      completenessScore ⟨a, b, c, d, e, g, h, i⟩ ≤ 100
      ∧ completenessScore ⟨a, b, c, d, e, g, h, i⟩ =
          20 * a.toNat + 20 * b.toNat + 10 * c.toNat + 10 * d.toNat
            + 10 * e.toNat + 15 * g.toNat + 5 * h.toNat + 10 * i.toNat
      ∧ (documentQuality (completenessScore ⟨a, b, c, d, e, g, h, i⟩) = .EXCELENTE
          ↔ 85 ≤ completenessScore ⟨a, b, c, d, e, g, h, i⟩)
      ∧ (documentQuality (completenessScore ⟨a, b, c, d, e, g, h, i⟩) = .BOA
          ↔ 70 ≤ completenessScore ⟨a, b, c, d, e, g, h, i⟩
            ∧ completenessScore ⟨a, b, c, d, e, g, h, i⟩ < 85)
      ∧ (documentQuality (completenessScore ⟨a, b, c, d, e, g, h, i⟩) = .REGULAR
          ↔ 50 ≤ completenessScore ⟨a, b, c, d, e, g, h, i⟩
            ∧ completenessScore ⟨a, b, c, d, e, g, h, i⟩ < 70)
      ∧ (documentQuality (completenessScore ⟨a, b, c, d, e, g, h, i⟩) = .INSUFICIENTE
          ↔ completenessScore ⟨a, b, c, d, e, g, h, i⟩ < 50) := by
  decide

/-- Claim C9: turning any single evidence flag on, holding the other seven
fixed, never decreases the completeness score. -/
theorem C9_score_monotone :
    ∀ a b c d e g h i : Bool,
      completenessScore ⟨a, b, c, d, e, g, h, i⟩
          ≤ completenessScore ⟨true, b, c, d, e, g, h, i⟩
      ∧ completenessScore ⟨a, b, c, d, e, g, h, i⟩
          ≤ completenessScore ⟨a, true, c, d, e, g, h, i⟩
      ∧ completenessScore ⟨a, b, c, d, e, g, h, i⟩
          ≤ completenessScore ⟨a, b, true, d, e, g, h, i⟩
      ∧ completenessScore ⟨a, b, c, d, e, g, h, i⟩
          ≤ completenessScore ⟨a, b, c, true, e, g, h, i⟩
      ∧ completenessScore ⟨a, b, c, d, e, g, h, i⟩
          ≤ completenessScore ⟨a, b, c, d, true, g, h, i⟩
      ∧ completenessScore ⟨a, b, c, d, e, g, h, i⟩
          ≤ completenessScore ⟨a, b, c, d, e, true, h, i⟩
      ∧ completenessScore ⟨a, b, c, d, e, g, h, i⟩
          ≤ completenessScore ⟨a, b, c, d, e, g, true, i⟩
      ∧ completenessScore ⟨a, b, c, d, e, g, h, i⟩
          ≤ completenessScore ⟨a, b, c, d, e, g, h, true⟩ := by
  decide

/-! ## Helper lemmas about the eligibility scan -/

/-- Invariant of the per-document scan state: a detected type always comes
with at least one functional-limitation finding (every block that sets the
type also appends a finding), and the four blocks only ever assign FISICA,
INTELECTUAL, AUDITIVA or VISUAL. -/
def ScanInv (st : ScanState) : Prop :=
  (st.deficiencyType.isSome = true → st.functionalLimitations ≠ [])
    ∧ st.deficiencyType ≠ some .MULTIPLA ∧ st.deficiencyType ≠ some .PSICOSSOCIAL

theorem stepType_inv (m : Bool) (t : DeficiencyType) (f : String) (st : ScanState)
    (ht : t ≠ .MULTIPLA ∧ t ≠ .PSICOSSOCIAL) (h : ScanInv st) :
    ScanInv (stepType m t f st) := by
  unfold stepType ScanInv at *
  cases m <;> simp_all

theorem stepEvidence_inv (m : Bool) (e : String) (st : ScanState) (h : ScanInv st) :
    ScanInv (stepEvidence m e st) := by
  unfold stepEvidence ScanInv at *
  cases m <;> simp_all

theorem scanEvalDoc_inv (st : ScanState) (doc : DocEntry) (h : ScanInv st) :
    ScanInv (scanEvalDoc st doc) := by
  unfold scanEvalDoc
  exact stepEvidence_inv _ _ _ (stepEvidence_inv _ _ _
    (stepType_inv _ _ _ _ (by simp) (stepType_inv _ _ _ _ (by simp)
      (stepType_inv _ _ _ _ (by simp) (stepType_inv _ _ _ _ (by simp) h)))))

theorem foldl_scan_inv (docs : List DocEntry) (st : ScanState) (h : ScanInv st) :
    ScanInv (docs.foldl scanEvalDoc st) := by
  induction docs generalizing st with
  | nil => exact h
  | cons d ds ih => exact ih _ (scanEvalDoc_inv st d h)

theorem evalScan_inv (docs : List DocEntry) : ScanInv (evalScan docs) :=
  foldl_scan_inv docs _ (by unfold ScanInv; simp)

/-- `evaluatePCDEligibility` is the guarded body, whose embedded body never
fails. -/
theorem evaluatePCDEligibility_eq (docs : List DocEntry) :
    evaluatePCDEligibility docs = evalBody docs := rfl

/-- The confidence 0.6 belongs only to the third decision branch, and that
branch is never taken. -/
theorem evalBody_confidence_ne (docs : List DocEntry) :
    (evalBody docs).confidence ≠ 0.6 := by
  unfold evalBody
  by_cases h1 : (evalMissingDocs docs).length > 0
  · simp only [h1, if_true, if_pos]
    norm_num
  · by_cases h2 : (evalScan docs).deficiencyType.isSome = true
    · have hne : (evalScan docs).functionalLimitations ≠ [] := (evalScan_inv docs).1 h2
      have hlen : 0 < (evalScan docs).functionalLimitations.length := List.length_pos.mpr hne
      simp [h1, h2, hlen]
      norm_num
    · have h2' : (evalScan docs).deficiencyType.isSome = false := by
        simpa using h2
      simp [h1, h2']
      norm_num

/-- A document set reaching the CONFIRMED branch: both required kinds
present, one content matching the FISICA keyword block. -/
def docsConfirmedSample : List DocEntry :=
  [{ type := .LAUDO_MEDICO, content := "deficiência física" },
   { type := .RELATORIO_ESPECIALISTA, content := "parecer" }]

/-- A document set reaching the REJECTED branch: both required kinds
present, no keyword matches. -/
def docsRejectedSample : List DocEntry :=
  [{ type := .LAUDO_MEDICO, content := "documento base" },
   { type := .RELATORIO_ESPECIALISTA, content := "parecer" }]

/-- Claim C1 (amended): the decision is the first matching branch of the
top-down table, and branches 1 (INDETERMINATE 0.3), 2 (CONFIRMED 0.8
MODERATE) and 4 (REJECTED 0.7) are reachable; branch 3 (INDETERMINATE 0.6
with a physical evaluation) is unreachable, because a detected type always
comes with a functional-limitation finding, so branch 2 subsumes it. -/
theorem C1_decision_table_amended :
    (∀ docs : List DocEntry,
        (evalMissingDocs docs ≠ [] →
          (evaluatePCDEligibility docs).outcome = .TALVEZ
            ∧ (evaluatePCDEligibility docs).confidence = 0.3)
        ∧ (evalMissingDocs docs = [] → (evalScan docs).deficiencyType.isSome = true →
            (evaluatePCDEligibility docs).outcome = .SIM
              ∧ (evaluatePCDEligibility docs).confidence = 0.8
              ∧ (evaluatePCDEligibility docs).severityLevel = some .MODERADA)
        ∧ (evalMissingDocs docs = [] → (evalScan docs).deficiencyType = none →
            (evaluatePCDEligibility docs).outcome = .NAO
              ∧ (evaluatePCDEligibility docs).confidence = 0.7))
      ∧ (∀ docs : List DocEntry,
          ¬((evalScan docs).deficiencyType.isSome = true
            ∧ (evalScan docs).functionalLimitations = []))
      ∧ (evalMissingDocs [] ≠ []
          ∧ (evaluatePCDEligibility []).outcome = .TALVEZ
          ∧ (evaluatePCDEligibility []).confidence = 0.3)
      ∧ (evalMissingDocs docsConfirmedSample = []
          ∧ (evaluatePCDEligibility docsConfirmedSample).outcome = .SIM
          ∧ (evaluatePCDEligibility docsConfirmedSample).confidence = 0.8
          ∧ (evaluatePCDEligibility docsConfirmedSample).severityLevel = some .MODERADA)
      ∧ (evalMissingDocs docsRejectedSample = []
          ∧ (evalScan docsRejectedSample).deficiencyType = none
          ∧ (evaluatePCDEligibility docsRejectedSample).outcome = .NAO
          ∧ (evaluatePCDEligibility docsRejectedSample).confidence = 0.7) := by
  refine ⟨fun docs => ⟨?_, ?_, ?_⟩, fun docs hc => ?_,
    ⟨by decide, rfl, rfl⟩, ⟨by decide, rfl, rfl, rfl⟩, ⟨by decide, by decide, rfl, rfl⟩⟩
  · intro hm
    have hlen : 0 < (evalMissingDocs docs).length := List.length_pos.mpr hm
    rw [evaluatePCDEligibility_eq]
    unfold evalBody
    simp [hlen]
  · intro hm hs
    have hne : (evalScan docs).functionalLimitations ≠ [] := (evalScan_inv docs).1 hs
    have hlen : 0 < (evalScan docs).functionalLimitations.length := List.length_pos.mpr hne
    rw [evaluatePCDEligibility_eq]
    unfold evalBody
    simp [hm, hs, hlen]
  · intro hm hnone
    rw [evaluatePCDEligibility_eq]
    unfold evalBody
    simp [hm, hnone]
  · exact absurd (hc.2) (fun h => (evalScan_inv docs).1 hc.1 h)

/-- Claim C1 counterexample: no input reaches the third branch — no
assessment ever carries outcome INDETERMINATE with confidence 0.6 and a
physical-evaluation requirement. -/
theorem C1_branch3_unreachable_cex :
    ¬ ∃ docs : List DocEntry,
        (evaluatePCDEligibility docs).outcome = .TALVEZ
          ∧ (evaluatePCDEligibility docs).confidence = 0.6
          ∧ (evaluatePCDEligibility docs).requiresPhysicalEvaluation = true := by
  rintro ⟨docs, -, hconf, -⟩
  rw [evaluatePCDEligibility_eq] at hconf
  exact evalBody_confidence_ne docs hconf

/-- Claim C2 counterexample: with zero documents the assessment is
INDETERMINATE (TALVEZ) with confidence 0.3 — not REJECTED (NAO) with
confidence 0.7 as the claim states. -/
theorem C2_zero_docs_cex :
    (evaluatePCDEligibility []).outcome = .TALVEZ
      ∧ (evaluatePCDEligibility []).confidence = 0.3
      ∧ Outcome.TALVEZ ≠ Outcome.NAO ∧ (0.3 : ℚ) ≠ 0.7 :=
  ⟨rfl, rfl, by decide, by norm_num⟩

/-- Claim C2 (amended): with zero documents both required documents are
missing, so the first branch fires: INDETERMINATE with confidence 0.3,
empty clinical-evidence and functional-limitation lists, and the two
required-document entries in the missing list. -/
theorem C2_zero_docs_amended :
    (evaluatePCDEligibility []).outcome = .TALVEZ
      ∧ (evaluatePCDEligibility []).confidence = 0.3
      ∧ (evaluatePCDEligibility []).clinicalEvidence = []
      ∧ (evaluatePCDEligibility []).functionalLimitations = []
      ∧ (evaluatePCDEligibility []).missingDocumentation =
          ["Laudo médico atualizado (menos de 1 ano)",
           "Relatório de médico especialista na área da deficiência"] :=
  ⟨rfl, rfl, rfl, rfl, rfl⟩

/-- Claim C6: whenever the body of `evaluatePCDEligibility` signals an
error, the guard returns the degraded assessment: INDETERMINATE, confidence
0.1, empty functional-limitation, compensatory-factor and clinical-evidence
lists, physical evaluation required, and the manual-review
missing-documentation entry. -/
theorem C6_error_fallback (body : List DocEntry → Except String EvalResult)
    (docs : List DocEntry) (msg : String) (herr : body docs = .error msg) :
    runGuarded body docs = degradedEvalResult
      ∧ degradedEvalResult.outcome = .TALVEZ
      ∧ degradedEvalResult.confidence = 0.1
      ∧ degradedEvalResult.functionalLimitations = []
      ∧ degradedEvalResult.compensatoryFactors = []
      ∧ degradedEvalResult.clinicalEvidence = []
      ∧ degradedEvalResult.requiresPhysicalEvaluation = true
      ∧ degradedEvalResult.missingDocumentation =
          ["Erro na análise - revisão manual necessária"] := by
  unfold runGuarded
  rw [herr]
  exact ⟨rfl, rfl, rfl, rfl, rfl, rfl, rfl, rfl⟩

/-- Witness for C6 with a body that fails on the empty document list. -/
theorem C6_error_fallback_witness :
    runGuarded (fun _ => .error "falha interna") [] = degradedEvalResult
      ∧ degradedEvalResult.outcome = .TALVEZ
      ∧ degradedEvalResult.confidence = 0.1
      ∧ degradedEvalResult.functionalLimitations = []
      ∧ degradedEvalResult.compensatoryFactors = []
      ∧ degradedEvalResult.clinicalEvidence = []
      ∧ degradedEvalResult.requiresPhysicalEvaluation = true
      ∧ degradedEvalResult.missingDocumentation =
          ["Erro na análise - revisão manual necessária"] :=
  C6_error_fallback (fun _ => .error "falha interna") [] "falha interna" rfl

/-- Claim C10: the per-document keyword rules only ever assign FISICA,
INTELECTUAL, AUDITIVA or VISUAL (or leave the type unset), so the returned
`deficiencyType` is never MULTIPLA and never PSICOSSOCIAL, although both
belong to the output enumeration. -/
theorem C10_no_multipla_psicossocial (docs : List DocEntry) :
    (evaluatePCDEligibility docs).deficiencyType ≠ some .MULTIPLA
      ∧ (evaluatePCDEligibility docs).deficiencyType ≠ some .PSICOSSOCIAL := by
  have hfield : (evaluatePCDEligibility docs).deficiencyType
      = (evalScan docs).deficiencyType := rfl
  rw [hfield]
  exact ⟨(evalScan_inv docs).2.1, (evalScan_inv docs).2.2⟩

/-! ## Helper lemmas about the Laudo template slots -/

theorem optLine_none (label : String) : optLine label none = "" := rfl

theorem optLine_empty (label : String) : optLine label (some "") = "" := by
  simp [optLine]

theorem optLine_some (label s : String) (h : s ≠ "") :
    optLine label (some s) = label ++ s := by
  simp [optLine, h]

/-- A dossier with every optional field absent, used to exhibit the
blank-line rendering. -/
def sampleLaudoData : LaudoData where
  candidateInfo := { fullName := "Ana Silva", cpf := "123", birthDate := "01/01/1990" }
  medicalInfo := { deficiencyType := .FISICA, cidCode := "G80", diagnosis := "Paralisia",
                   prognosis := .PERMANENTE, severityLevel := .MODERADA }
  functionalAssessment := { functionalLimitations := ["Marcha"],
                            preservedFunctions := ["Fala"],
                            adaptiveCapacity := "Boa", assistiveTechnology := [] }
  professionalInfo := { doctorName := "Jo", crm := "1", specialization := "Orto",
                        issueDate := "01/02/2026" }
  legalBasis := { lei13146 := true, decreto3298 := true, cif := true }

/-- The template always renders exactly 75 line slots, whatever the
dossier. -/
theorem laudoLines_length (d : LaudoData) (laudoId currentDate : String) :
    (laudoLines d laudoId currentDate).length = 75 := rfl

set_option maxRecDepth 1000000 in
/-- Claim C5 counterexample: with the RG absent the rendered document keeps
a blank line between the CPF line and the birth-date line (the two lines
are separated by two consecutive line breaks, and the single-break form the
claimed omission would produce does not occur); the RG label itself is
gone. -/
theorem C5_optional_line_cex :
    strIncludes (fullDocument sampleLaudoData "L1" "02/02/2026")
        "CPF: 123\n\nData de Nascimento: 01/01/1990" = true
      ∧ strIncludes (fullDocument sampleLaudoData "L1" "02/02/2026")
          "CPF: 123\nData de Nascimento: 01/01/1990" = false
      ∧ strIncludes (fullDocument sampleLaudoData "L1" "02/02/2026") "RG:" = false := by
  decide

/-- Claim C5 (amended): the template always renders the same 75 line slots;
when an optional field is absent (or empty, which JavaScript treats the
same), its slot renders as the empty string — a blank line, with the label
and value omitted but the line break kept — and when it is present and
non-empty the slot renders label and value. The line is never omitted and
no label-with-empty-value placeholder is ever rendered. -/
theorem C5_optional_line_amended (d : LaudoData) (laudoId currentDate : String) :
    (laudoLines d laudoId currentDate).length = 75
      ∧ ((d.candidateInfo.rg = none ∨ d.candidateInfo.rg = some "") →
          (laudoLines d laudoId currentDate).get ⟨11, by simp [laudoLines_length]⟩ = "")
      ∧ (∀ r, d.candidateInfo.rg = some r → r ≠ "" →
          (laudoLines d laudoId currentDate).get ⟨11, by simp [laudoLines_length]⟩ = "RG: " ++ r)
      ∧ ((d.candidateInfo.address = none ∨ d.candidateInfo.address = some "") →
          (laudoLines d laudoId currentDate).get ⟨13, by simp [laudoLines_length]⟩ = "")
      ∧ (∀ r, d.candidateInfo.address = some r → r ≠ "" →
          (laudoLines d laudoId currentDate).get ⟨13, by simp [laudoLines_length]⟩ = "Endereco: " ++ r)
      ∧ ((d.candidateInfo.phone = none ∨ d.candidateInfo.phone = some "") →
          (laudoLines d laudoId currentDate).get ⟨14, by simp [laudoLines_length]⟩ = "")
      ∧ (∀ r, d.candidateInfo.phone = some r → r ≠ "" →
          (laudoLines d laudoId currentDate).get ⟨14, by simp [laudoLines_length]⟩ = "Telefone: " ++ r)
      ∧ ((d.candidateInfo.email = none ∨ d.candidateInfo.email = some "") →
          (laudoLines d laudoId currentDate).get ⟨15, by simp [laudoLines_length]⟩ = "")
      ∧ (∀ r, d.candidateInfo.email = some r → r ≠ "" →
          (laudoLines d laudoId currentDate).get ⟨15, by simp [laudoLines_length]⟩ = "Email: " ++ r)
      ∧ ((d.medicalInfo.cifCode = none ∨ d.medicalInfo.cifCode = some "") →
          (laudoLines d laudoId currentDate).get ⟨21, by simp [laudoLines_length]⟩ = "")
      ∧ (∀ r, d.medicalInfo.cifCode = some r → r ≠ "" →
          (laudoLines d laudoId currentDate).get ⟨21, by simp [laudoLines_length]⟩ = "CIF: " ++ r)
      ∧ ((d.medicalInfo.onsetDate = none ∨ d.medicalInfo.onsetDate = some "") →
          (laudoLines d laudoId currentDate).get ⟨22, by simp [laudoLines_length]⟩ = "")
      ∧ (∀ r, d.medicalInfo.onsetDate = some r → r ≠ "" →
          (laudoLines d laudoId currentDate).get ⟨22, by simp [laudoLines_length]⟩ = "Data de Inicio: " ++ r)
      ∧ (d.functionalAssessment.assistiveTechnology = [] →
          (laudoLines d laudoId currentDate).get ⟨37, by simp [laudoLines_length]⟩ = "")
      ∧ ((d.legalBasis.otherLaws = none ∨ d.legalBasis.otherLaws = some []) →
          (laudoLines d laudoId currentDate).get ⟨55, by simp [laudoLines_length]⟩ = "") := by
  refine ⟨laudoLines_length d laudoId currentDate,
    ?_, ?_, ?_, ?_, ?_, ?_, ?_, ?_, ?_, ?_, ?_, ?_, ?_, ?_⟩
  · intro h
    show optLine "RG: " d.candidateInfo.rg = ""
    rcases h with h | h <;> rw [h]
    · exact optLine_none _
    · exact optLine_empty _
  · intro r hr hne
    show optLine "RG: " d.candidateInfo.rg = "RG: " ++ r
    rw [hr]
    exact optLine_some _ _ hne
  · intro h
    show optLine "Endereco: " d.candidateInfo.address = ""
    rcases h with h | h <;> rw [h]
    · exact optLine_none _
    · exact optLine_empty _
  · intro r hr hne
    show optLine "Endereco: " d.candidateInfo.address = "Endereco: " ++ r
    rw [hr]
    exact optLine_some _ _ hne
  · intro h
    show optLine "Telefone: " d.candidateInfo.phone = ""
    rcases h with h | h <;> rw [h]
    · exact optLine_none _
    · exact optLine_empty _
  · intro r hr hne
    show optLine "Telefone: " d.candidateInfo.phone = "Telefone: " ++ r
    rw [hr]
    exact optLine_some _ _ hne
  · intro h
    show optLine "Email: " d.candidateInfo.email = ""
    rcases h with h | h <;> rw [h]
    · exact optLine_none _
    · exact optLine_empty _
  · intro r hr hne
    show optLine "Email: " d.candidateInfo.email = "Email: " ++ r
    rw [hr]
    exact optLine_some _ _ hne
  · intro h
    show optLine "CIF: " d.medicalInfo.cifCode = ""
    rcases h with h | h <;> rw [h]
    · exact optLine_none _
    · exact optLine_empty _
  · intro r hr hne
    show optLine "CIF: " d.medicalInfo.cifCode = "CIF: " ++ r
    rw [hr]
    exact optLine_some _ _ hne
  · intro h
    show optLine "Data de Inicio: " d.medicalInfo.onsetDate = ""
    rcases h with h | h <;> rw [h]
    · exact optLine_none _
    · exact optLine_empty _
  · intro r hr hne
    show optLine "Data de Inicio: " d.medicalInfo.onsetDate = "Data de Inicio: " ++ r
    rw [hr]
    exact optLine_some _ _ hne
  · intro h
    show assistiveBlock d.functionalAssessment.assistiveTechnology = ""
    rw [h]
    rfl
  · intro h
    show otherLawsLine d.legalBasis.otherLaws = ""
    rcases h with h | h <;> rw [h] <;> rfl
